import Mathlib

/-! Chronovyan / 4everCode documentation scripts.

A shallow embedding of the page-enhancement scripts
(assets/js/extra.js, docs/overrides/assets/javascripts/theme.js, docs/html/js/main.js)
and of the social-preview snapshot script
(docs_backup_20250609_011001/scripts/generate-social-image.js).

Browser and Node facilities (the DOM, the clipboard, timers, puppeteer, fs, path) are
not code of the repository: their answers are inputs of the models, and every call the
scripts make to them is recorded as an effect.
-/

set_option autoImplicit false

namespace Chronovyan

/-! ## Snapshot generator (generate-social-image.js) -/

namespace SocialImage

/-- The awaited puppeteer operations of the script, in source order. -/
inductive Step
  | launch | newPage | setViewport | goto | evaluateHandle | screenshot | close
  deriving DecidableEq, Repr

/-- Calls the script makes on its collaborators, with the arguments it passes. -/
inductive Call
  | existsSync (p : String)
  | mkdirSync (p : String) (recursive : Bool)
  | launch (headless : String) (args : List String)
  | newPage
  | setViewport (width height deviceScaleFactor : Nat)
  | goto (url waitUntil : String)
  | evaluateHandle (expression : String)
  | screenshot (path type : String) (fullPage : Bool)
  | close
  | consoleLog (message : String)
  | consoleError (message error : String)
  | processExit (code : Nat)
  deriving DecidableEq, Repr

/-- What the host answers during one run: the module directory, the library function
path.join, whether the output directory is already there, the error thrown by
fs.mkdirSync (none when it returns) and, for each awaited operation, the reason it
rejects with (none when it resolves). -/
structure Env where
  dirname : String
  join : String → String → String
  dirExists : Bool
  mkdirError : Option String
  fail : Step → Option String

/-- How a block of statements ends: it runs to its end, it throws (a rejected await
included), or the process is terminated by process.exit. -/
inductive Completion
  | normal
  | thrown (error : String)
  | exited (code : Nat)
  deriving DecidableEq, Repr

/-- The calls a block made, in order, and how it ended. -/
structure Block where
  trace : List Call
  completion : Completion
  deriving DecidableEq, Repr

/-- Sequencing of statements: the second block runs only when the first ends normally. -/
def Block.seq (a b : Block) : Block :=
  match a.completion with
  | .normal => ⟨a.trace ++ b.trace, b.completion⟩
  | _ => a

/-- A synchronous call that returns. -/
def doCall (c : Call) : Block := ⟨[c], .normal⟩

/-- An awaited automation call: issued, then either resolved or thrown at the await. -/
def await (env : Env) (s : Step) (c : Call) : Block :=
  ⟨[c], match env.fail s with
        | none => .normal
        | some e => .thrown e⟩

/-- The call process.exit(code): the process terminates at this point. -/
def processExit (code : Nat) : Block := ⟨[.processExit code], .exited code⟩

/-- The statement try body catch (error) handler finally finalizer. A thrown body runs
the handler; the finalizer runs after the body or handler unless the process was
terminated in between; a throw that is still pending after a normally completed
finalizer propagates. -/
def tryCatchFinally (body : Block) (handler : String → Block) (finalizer : Block) : Block :=
  let caught : Block :=
    match body.completion with
    | .thrown e => ⟨body.trace ++ (handler e).trace, (handler e).completion⟩
    | _ => body
  match caught.completion with
  | .exited _ => caught
  | .normal => ⟨caught.trace ++ finalizer.trace, finalizer.completion⟩
  | .thrown e =>
    ⟨caught.trace ++ finalizer.trace,
      match finalizer.completion with
      | .normal => .thrown e
      | c => c⟩

/-- The replacement htmlPath.replace(/\\/g, "/"): every backslash becomes a slash. -/
def replaceBackslashes (s : String) : String :=
  String.mk (s.data.map fun c => if c = Char.ofNat 92 then Char.ofNat 47 else c)

/-- Line 6: outputDir. -/
def outputDir (env : Env) : String :=
  env.join env.dirname "../../assets/images/social"

/-- Line 29: htmlPath. -/
def htmlPath (env : Env) : String :=
  env.join env.dirname "../../assets/images/social/core-concepts-preview.html"

/-- Line 30: fileUrl. -/
def fileUrl (env : Env) : String :=
  "file://" ++ replaceBackslashes (htmlPath env)

/-- Line 39: outputPath. -/
def outputPath (env : Env) : String :=
  env.join (outputDir env) "core-concepts-social.png"

/-- Lines 7-9: create the output directory when it is absent. -/
def ensureOutputDir (env : Env) : Block :=
  (doCall (.existsSync (outputDir env))).seq
    (if env.dirExists then ⟨[], .normal⟩
     else ⟨[.mkdirSync (outputDir env) true],
            match env.mkdirError with
            | none => .normal
            | some e => .thrown e⟩)

/-- Lines 13-16: the launch, awaited before the try statement. -/
def launchBlock (env : Env) : Block :=
  await env .launch (.launch "new" ["--no-sandbox", "--disable-setuid-sandbox"])

/-- Lines 19-46: the body of the try statement. -/
def tryBody (env : Env) : Block :=
  (await env .newPage .newPage).seq <|
  (await env .setViewport (.setViewport 1200 630 2)).seq <|
  (await env .goto (.goto (fileUrl env) "networkidle0")).seq <|
  (await env .evaluateHandle (.evaluateHandle "document.fonts.ready")).seq <|
  (await env .screenshot (.screenshot (outputPath env) "png" false)).seq <|
  doCall (.consoleLog ("Social preview image generated at: " ++ outputPath env))

/-- Lines 47-50: the catch clause. -/
def catchBlock (error : String) : Block :=
  (doCall (.consoleError "Error generating social preview image:" error)).seq (processExit 1)

/-- Lines 50-52: the finally clause. -/
def finallyBlock (env : Env) : Block :=
  await env .close .close

/-- Lines 11-53: the async function that is invoked at once. A thrown completion is a
rejection of the promise it returns, for which the script installs no handler. -/
def main (env : Env) : Block :=
  (launchBlock env).seq (tryCatchFinally (tryBody env) catchBlock (finallyBlock env))

/-- The whole script: lines 5-9, then the invocation of main. -/
def script (env : Env) : Block :=
  (ensureOutputDir env).seq (main env)

/-- Exit status of the process for a completion of main. The status after a rejection
nobody handles is a policy of the runtime and is taken as a parameter (1 for the
default of current Node releases, 0 for releases that only warn). -/
def exitStatus (unhandledStatus : Nat) : Completion → Nat
  | .normal => 0
  | .thrown _ => unhandledStatus
  | .exited code => code

/-- The operations awaited inside the try statement. -/
def trySteps : List Step :=
  [.newPage, .setViewport, .goto, .evaluateHandle, .screenshot]

/-- Every awaited operation resolves. -/
def allSucceed (env : Env) : Prop :=
  ∀ s : Step, env.fail s = none

/-- The output directory is there when the launch starts: it existed, or mkdirSync
created it without throwing. -/
def dirReady (env : Env) : Prop :=
  env.dirExists = true ∨ env.mkdirError = none

/-- The rejection reason of the first operation inside the try statement that rejects. -/
def firstRejection (env : Env) : Option String :=
  trySteps.findSome? env.fail

/-- Exit status of the process that runs the script. An exception thrown by lines 5-9 is
uncaught at top level, for which Node exits with status 1; otherwise the status is the
one of the completion of main. -/
def scriptStatus (unhandledStatus : Nat) (env : Env) : Nat :=
  match (ensureOutputDir env).completion with
  | .normal => exitStatus unhandledStatus (main env).completion
  | .thrown _ => 1
  | .exited code => code

/-- The segments of a path between slashes. -/
def splitOnSlash : List Char → List Char → List (List Char)
  | [], current => [current.reverse]
  | c :: rest, current =>
    if c = Char.ofNat 47 then current.reverse :: splitOnSlash rest []
    else splitOnSlash rest (c :: current)

/-- The segment resolution of path.normalize: empty segments and "." are dropped, ".."
removes the segment before it, and is kept only in a relative path that has nothing
left to remove. The accumulator holds the kept segments, last one first. -/
def normalizeSegments (allowAboveRoot : Bool) :
    List (List Char) → List (List Char) → List (List Char)
  | [], kept => kept.reverse
  | seg :: rest, kept =>
    if seg = [] ∨ seg = [Char.ofNat 46] then normalizeSegments allowAboveRoot rest kept
    else if seg = [Char.ofNat 46, Char.ofNat 46] then
      match kept with
      | top :: below =>
        if top = [Char.ofNat 46, Char.ofNat 46] then
          normalizeSegments allowAboveRoot rest (if allowAboveRoot then seg :: kept else kept)
        else normalizeSegments allowAboveRoot rest below
      | [] => normalizeSegments allowAboveRoot rest (if allowAboveRoot then [seg] else [])
    else normalizeSegments allowAboveRoot rest (seg :: kept)

/-- The function path.posix.normalize of Node. -/
def posixNormalize (path : String) : String :=
  match path.data with
  | [] => "."
  | c :: rest =>
    let isAbsolute : Bool := decide (c = Char.ofNat 47)
    let trailingSeparator : Bool := decide ((c :: rest).getLast? = some (Char.ofNat 47))
    let segs := normalizeSegments (!isAbsolute) (splitOnSlash (c :: rest) []) []
    if segs = [] then
      if isAbsolute then "/" else if trailingSeparator then "./" else "."
    else
      let body := String.mk (List.intercalate [Char.ofNat 47] segs)
      let body := if trailingSeparator then body ++ "/" else body
      if isAbsolute then "/" ++ body else body

/-- The function path.posix.join of Node on two arguments: the non-empty arguments are
joined with a slash and the result is normalized. -/
def posixJoin (a b : String) : String :=
  if a = "" then (if b = "" then "." else posixNormalize b)
  else if b = "" then posixNormalize a
  else posixNormalize (a ++ "/" ++ b)

/-- A POSIX host with the script in /repo/docs/scripts, in which every operation
resolves, except the given one (if any), and the output directory is absent. -/
def sampleEnv (failing : Option Step) : Env where
  dirname := "/repo/docs/scripts"
  join := posixJoin
  dirExists := false
  mkdirError := none
  fail := fun s => if failing = some s then some "boom" else none

/-- The same host, except that the output directory cannot be created. -/
def sampleEnvNoDir : Env :=
  { sampleEnv none with mkdirError := some "EACCES" }

end SocialImage

/-! ## Tab keyboard navigation (assets/js/extra.js, lines 51-73) -/

namespace Tabs

/-- What the keydown handler does to the page. Inputs are named by their index in the
NodeList returned by querySelectorAll(".tabbed-set > input"). -/
inductive Effect
  | setChecked (input : Nat)
  | focus (input : Nat)
  | preventDefault
  deriving DecidableEq, Repr

/-- The indexing inputs[k] on a NodeList of n nodes: undefined outside 0..n-1. -/
def item (n : Nat) (k : Int) : Option Nat :=
  if 0 ≤ k ∧ k < (n : Int) then some k.toNat else none

/-- The expression a || b on values that are a node (truthy) or undefined. -/
def orElse : Option Nat → Option Nat → Option Nat
  | some a, _ => some a
  | none, b => b

/-- The statements x.checked = true; x.focus(); e.preventDefault(): on an undefined x
the first one throws a TypeError. -/
def selectNode : Option Nat → Except String (List Effect)
  | some j => .ok [.setChecked j, .focus j, .preventDefault]
  | none => .error "TypeError"

/-- The keydown listener that forEach attaches to inputs[i], where inputs has n nodes. -/
def keydown (n i : Nat) (key : String) : Except String (List Effect) :=
  if key = "ArrowRight" then
    selectNode (orElse (item n ((i : Int) + 1)) (item n 0))
  else if key = "ArrowLeft" then
    selectNode (orElse (item n ((i : Int) - 1)) (item n ((n : Int) - 1)))
  else if key = "Home" then
    selectNode (item n 0)
  else if key = "End" then
    selectNode (item n ((n : Int) - 1))
  else
    .ok []

/-- The tab sets of a document, in document order: the number of inputs that are
children of each .tabbed-set element. -/
abbrev TabDocument := List Nat

/-- Length of querySelectorAll(".tabbed-set > input"): the inputs of all tab sets. -/
def inputCount (doc : TabDocument) : Nat := doc.sum

/-- The tab set that the input with NodeList index k is a child of. -/
def groupOf : TabDocument → Nat → Nat
  | [], _ => 0
  | size :: rest, k => if k < size then 0 else groupOf rest (k - size) + 1

/-- NodeList index of the first input of tab set g. -/
def offset (doc : TabDocument) (g : Nat) : Nat := (doc.take g).sum

/-- The listener of input i in a document: the NodeList passed to the forEach callback
is the one of the whole document. -/
def handlerOf (doc : TabDocument) (i : Nat) (key : String) : Except String (List Effect) :=
  keydown (inputCount doc) i key

/-- The part of the page the handler acts on. The inputs of a tab set are radio
buttons sharing one name, so that at most one of a set is checked. -/
structure Page where
  doc : TabDocument
  checked : Nat → Bool
  focused : Option Nat

/-- One effect applied to the page. Checking a radio button unchecks the others of
its tab set and leaves the other tab sets alone. -/
def applyEffect (page : Page) : Effect → Page
  | .setChecked j =>
    { page with
      checked := fun k =>
        if k = j then true
        else if groupOf page.doc k = groupOf page.doc j then false
        else page.checked k }
  | .focus j => { page with focused := some j }
  | .preventDefault => page

/-- A key press: the keydown event goes to the focused input and its listener runs. -/
def press (key : String) (page : Page) : Page :=
  match page.focused with
  | none => page
  | some i =>
    if i < inputCount page.doc then
      match handlerOf page.doc i key with
      | .ok effects => effects.foldl applyEffect page
      | .error _ => page
    else page

/-- Input k is the selected one: it is checked and has the focus. -/
def selected (page : Page) (k : Nat) : Prop :=
  page.checked k = true ∧ page.focused = some k

/-- A page in which input k has the focus and is the only checked input of its set. -/
def startAt (doc : TabDocument) (k : Nat) : Page where
  doc := doc
  checked := fun j => decide (j = k)
  focused := some k

end Tabs

/-! ## Copy buttons (assets/js/extra.js lines 5-34, theme.js lines 45-80) -/

namespace Copy

/-- The two copy-button implementations: assets/js/extra.js and
docs/overrides/assets/javascripts/theme.js. -/
inductive Variant
  | assets | theme
  deriving DecidableEq, Repr

/-- How the promise returned by navigator.clipboard.writeText settles. -/
inductive WriteResult
  | resolved
  | rejected (reason : String)
  deriving DecidableEq, Repr

/-- One activation of a copy control. The field time is the instant (in ms) at which
the clipboard write settles, text is the textContent of the code element, and
codeFound tells whether highlight.querySelector("code") finds an element (theme.js
only; in extra.js the matched element is the code element itself). -/
structure Activation where
  time : Nat
  text : String
  codeFound : Bool
  result : WriteResult
  deriving DecidableEq, Repr

/-- What can be observed of one copy control: icon.textContent, the clipboard, the due
times of the pending setTimeout callbacks, the lines written by console.error and the
rejections that reached no handler. -/
structure Ui where
  icon : String
  clipboard : Option String
  timers : List Nat
  console : List String
  unhandled : List String
  deriving DecidableEq, Repr

/-- State right after the button is attached: icon.textContent = "content_copy". -/
def initial : Ui := ⟨"content_copy", none, [], [], []⟩

/-- Time passes until instant t: every pending timeout callback that is due runs (it
sets the icon back to "content_copy") and is removed. -/
def advance (t : Nat) (ui : Ui) : Ui :=
  { ui with
    icon := if ui.timers.any (fun d => decide (d ≤ t)) then "content_copy" else ui.icon
    timers := ui.timers.filter (fun d => decide (t < d)) }

/-- The reactions registered on the promise of writeText, run at the instant it
settles. extra.js registers only a then callback, theme.js a then and a catch. -/
def settle (v : Variant) (a : Activation) (ui : Ui) : Ui :=
  if v = .theme ∧ a.codeFound = false then ui
  else
    match a.result with
    | .resolved =>
      { ui with
        clipboard := some a.text
        icon := "check"
        timers := ui.timers ++ [a.time + 2000] }
    | .rejected reason =>
      match v with
      | .assets => { ui with unhandled := ui.unhandled ++ [reason] }
      | .theme => { ui with console := ui.console ++ ["Failed to copy text: " ++ reason] }

/-- One activation: the clock reaches its instant, then its reactions run. -/
def step (v : Variant) (ui : Ui) (a : Activation) : Ui :=
  settle v a (advance a.time ui)

/-- A sequence of activations of one copy control, in order of time. -/
def run (v : Variant) (acts : List Activation) : Ui :=
  acts.foldl (step v) initial

end Copy

/-! ## External link annotation (assets/js/extra.js, lines 76-94) -/

namespace Links

/-- Content given to a created span, through innerHTML or through textContent. -/
inductive Content
  | html (source : String)
  | text (value : String)
  deriving DecidableEq, Repr

/-- A span element built with createElement("span"). -/
structure Span where
  className : String
  content : Content
  attrs : List (String × String)
  deriving DecidableEq, Repr

/-- A child node of a link: a span as above, or any other node. -/
inductive Node
  | span (s : Span)
  | other (label : String)
  deriving DecidableEq, Repr

/-- An a element: its hostname property, its attributes and its child nodes. -/
structure Link where
  hostname : String
  attrs : List (String × String)
  children : List Node
  deriving DecidableEq, Repr

/-- The document: window.location.hostname and the list querySelectorAll("a"). -/
structure Document where
  hostname : String
  links : List Link
  deriving DecidableEq, Repr

/-- The method setAttribute: the value of an attribute that is present is replaced,
an absent attribute is added. -/
def setAttribute (name value : String) : List (String × String) → List (String × String)
  | [] => [(name, value)]
  | (n, v) :: rest =>
    if n = name then (name, value) :: rest else (n, v) :: setAttribute name value rest

/-- The method getAttribute. -/
def getAttribute (name : String) : List (String × String) → Option String
  | [] => none
  | (n, v) :: rest => if n = name then some v else getAttribute name rest

/-- Lines 82-85: the icon span. -/
def iconSpan : Span :=
  ⟨"external-link-icon", .html "&nearr;", setAttribute "aria-hidden" "true" []⟩

/-- Lines 89-91: the span read by screen readers. -/
def srText : Span :=
  ⟨"sr-only", .text " (opens in new tab)", []⟩

/-- Line 77: link.hostname && link.hostname !== window.location.hostname. -/
def isExternal (docHost : String) (link : Link) : Bool :=
  decide (link.hostname ≠ "") && decide (link.hostname ≠ docHost)

/-- Lines 77-93: the body of the forEach callback. -/
def annotateLink (docHost : String) (link : Link) : Link :=
  if isExternal docHost link then
    { link with
      attrs := setAttribute "rel" "noopener noreferrer" (setAttribute "target" "_blank" link.attrs)
      children := link.children ++ [.span iconSpan, .span srText] }
  else link

/-- Lines 76-94: one run of the annotation over the document. -/
def annotate (doc : Document) : Document :=
  { doc with links := doc.links.map (annotateLink doc.hostname) }

/-- Number of children of a link that are spans of the given class. -/
def countClass (className : String) (link : Link) : Nat :=
  link.children.countP fun
    | .span s => decide (s.className = className)
    | .other _ => false

/-- A page on docs.example with one link to another host and one link to itself. -/
def sampleDocument : Document where
  hostname := "docs.example"
  links := [⟨"github.com", [("href", "https://github.com/x")], [.other "repo"]⟩,
            ⟨"docs.example", [("href", "/guide")], [.other "guide"]⟩]

end Links

/-! ## Smooth scrolling (extra.js lines 37-48, theme.js lines 20-42, main.js lines 37-48) -/

namespace Scroll

/-- The three click handlers: assets/js/extra.js, docs/overrides/.../theme.js and
docs/html/js/main.js. -/
inductive Variant
  | assets | theme | main
  deriving DecidableEq, Repr

/-- What a click handler does to the page. Elements are named by a number. -/
inductive Effect
  | preventDefault
  | scrollIntoView (element : Nat) (behavior block : String)
  | pushState (url : String)
  | setHash (hash : String)
  deriving DecidableEq, Repr

/-- The browser as the handlers see it: document.querySelector, which throws on a
string that is not a selector and otherwise returns the first match or null, and
whether history.pushState is available. -/
structure Dom where
  querySelector : String → Except String (Option Nat)
  hasPushState : Bool

/-- Result of one run of a handler: its effects and the exception it raised, if any. -/
structure Outcome where
  effects : List Effect
  error : Option String
  deriving DecidableEq, Repr

/-- The click listener of an anchor whose href attribute is the given string. -/
def click (v : Variant) (dom : Dom) (href : String) : Outcome :=
  match v with
  | .assets | .main =>
    match dom.querySelector href with
    | .error e => ⟨[.preventDefault], some e⟩
    | .ok none => ⟨[.preventDefault], none⟩
    | .ok (some target) => ⟨[.preventDefault, .scrollIntoView target "smooth" "start"], none⟩
  | .theme =>
    if href = "#" then ⟨[.preventDefault], none⟩
    else
      match dom.querySelector href with
      | .error e => ⟨[.preventDefault], some e⟩
      | .ok none => ⟨[.preventDefault], none⟩
      | .ok (some target) =>
        ⟨[.preventDefault, .scrollIntoView target "smooth" "start",
          if dom.hasPushState then .pushState href else .setHash href], none⟩

/-- The elements on which scrollIntoView was called, in order. -/
def scrolledTo (o : Outcome) : List Nat :=
  o.effects.filterMap fun
    | .scrollIntoView element _ _ => some element
    | _ => none

/-- Position of the first element carrying the id. -/
def findId (id : String) : List String → Nat → Option Nat
  | [], _ => none
  | x :: rest, k => if x = id then some k else findId id rest (k + 1)

/-- A browser page whose elements carry the given ids, for selectors of the two forms
an in-page href takes here: a lone "#", which is not a selector (querySelector throws
a SyntaxError), and "#" followed by a name, which selects by id. -/
def sampleDom (ids : List String) : Dom where
  querySelector := fun sel =>
    match sel.data with
    | c :: d :: name =>
      if c = Char.ofNat 35 then .ok (findId (String.mk (d :: name)) ids 0)
      else .error "SyntaxError"
    | _ => .error "SyntaxError"
  hasPushState := true

end Scroll

/-! ## Theorems -/

namespace SocialImage

theorem allSucceed_iff (env : Env) :
    allSucceed env ↔
      env.fail .launch = none ∧ (∀ s ∈ trySteps, env.fail s = none) ∧ env.fail .close = none := by
  constructor
  · intro h
    exact ⟨h _, fun s _ => h s, h _⟩
  · rintro ⟨hl, ht, hc⟩ s
    cases s
    · exact hl
    · exact ht _ (by simp [trySteps])
    · exact ht _ (by simp [trySteps])
    · exact ht _ (by simp [trySteps])
    · exact ht _ (by simp [trySteps])
    · exact ht _ (by simp [trySteps])
    · exact hc

/-- The try body ends normally exactly when its five awaited operations resolve; it then
made its five calls and the console.log, and otherwise it ends with a throw before
any later call is issued. -/
theorem tryBody_spec (env : Env) :
    ((∀ s ∈ trySteps, env.fail s = none) ∧
        tryBody env =
          ⟨[.newPage, .setViewport 1200 630 2, .goto (fileUrl env) "networkidle0",
            .evaluateHandle "document.fonts.ready", .screenshot (outputPath env) "png" false,
            .consoleLog ("Social preview image generated at: " ++ outputPath env)], .normal⟩) ∨
    ((∃ s ∈ trySteps, env.fail s ≠ none) ∧
        (∃ e, (tryBody env).completion = .thrown e) ∧
        (∀ c ∈ (tryBody env).trace,
          c ≠ .close ∧ (∀ m e, c ≠ .consoleError m e) ∧ (∀ k, c ≠ .processExit k)) ∧
        (∀ p t f, Call.screenshot p t f ∈ (tryBody env).trace →
          env.fail .goto = none ∧ env.fail .evaluateHandle = none)) := by
  cases h1 : env.fail .newPage <;> cases h2 : env.fail .setViewport <;>
    cases h3 : env.fail .goto <;> cases h4 : env.fail .evaluateHandle <;>
    cases h5 : env.fail .screenshot <;>
    simp [tryBody, trySteps, await, doCall, Block.seq, h1, h2, h3, h4, h5]

/-- The first rejection inside the try statement is what the try body throws. -/
theorem tryBody_thrown (env : Env) (e : String) :
    (tryBody env).completion = .thrown e ↔ firstRejection env = some e := by
  cases h1 : env.fail .newPage <;> cases h2 : env.fail .setViewport <;>
    cases h3 : env.fail .goto <;> cases h4 : env.fail .evaluateHandle <;>
    cases h5 : env.fail .screenshot <;>
    simp [tryBody, trySteps, firstRejection, await, doCall, Block.seq, h1, h2, h3, h4, h5]

/-- The calls of a run of main in which every operation resolves. -/
theorem main_success (env : Env) (h : allSucceed env) :
    main env =
      ⟨[.launch "new" ["--no-sandbox", "--disable-setuid-sandbox"], .newPage,
        .setViewport 1200 630 2, .goto (fileUrl env) "networkidle0",
        .evaluateHandle "document.fonts.ready", .screenshot (outputPath env) "png" false,
        .consoleLog ("Social preview image generated at: " ++ outputPath env), .close],
       .normal⟩ := by
  obtain ⟨hl, ht, hc⟩ := (allSucceed_iff env).1 h
  rcases tryBody_spec env with ⟨_, hb⟩ | ⟨⟨s, hs, hne⟩, _⟩
  · simp [main, launchBlock, finallyBlock, tryCatchFinally, await, Block.seq, hl, hc, hb]
  · exact absurd (ht s hs) hne

/-- When the launch resolves and an operation inside the try statement rejects with e,
the run of main is the launch, the calls of the try body up to the rejected one, the
report of e by the catch clause and process.exit(1); it ends there, and browser.close()
of the finally clause is never called. -/
theorem main_failure (env : Env) (e : String) (hl : env.fail .launch = none)
    (hf : firstRejection env = some e) :
    main env =
      ⟨Call.launch "new" ["--no-sandbox", "--disable-setuid-sandbox"] ::
        ((tryBody env).trace ++
          [.consoleError "Error generating social preview image:" e, .processExit 1]),
       .exited 1⟩ ∧
    (∀ c ∈ (tryBody env).trace,
      c ≠ .close ∧ (∀ m e', c ≠ .consoleError m e') ∧ (∀ k, c ≠ .processExit k)) := by
  have he := (tryBody_thrown env e).2 hf
  rcases tryBody_spec env with ⟨_, hb⟩ | ⟨_, _, hc, _⟩
  · rw [hb] at he
    simp at he
  · refine ⟨?_, hc⟩
    simp [main, launchBlock, tryCatchFinally, catchBlock, processExit, doCall, await,
      Block.seq, hl, he]

/-- A rejected launch rejects the promise of main: nothing is reported by the catch
clause and no later call is made. -/
theorem main_launch_failure (env : Env) (e : String) (hl : env.fail .launch = some e) :
    main env = ⟨[.launch "new" ["--no-sandbox", "--disable-setuid-sandbox"]], .thrown e⟩ := by
  simp [main, launchBlock, await, Block.seq, hl]

/-- A rejected close after an otherwise successful run rejects the promise of main. -/
theorem main_close_failure (env : Env) (e : String) (hl : env.fail .launch = none)
    (ht : ∀ s ∈ trySteps, env.fail s = none) (hc : env.fail .close = some e) :
    (main env).completion = .thrown e := by
  rcases tryBody_spec env with ⟨_, hb⟩ | ⟨⟨s, hs, hne⟩, _⟩
  · simp [main, launchBlock, finallyBlock, tryCatchFinally, await, Block.seq, hl, hc, hb]
  · exact absurd (ht s hs) hne

/-- Either no operation inside the try statement rejects, or there is a first one. -/
theorem firstRejection_cases (env : Env) :
    (∀ s ∈ trySteps, env.fail s = none) ∨ ∃ e, firstRejection env = some e := by
  rcases tryBody_spec env with ⟨ht, _⟩ | ⟨_, ⟨e, he⟩, _, _⟩
  · exact Or.inl ht
  · exact Or.inr ⟨e, (tryBody_thrown env e).1 he⟩

/-- The function main ends normally exactly when every awaited operation resolves, and
it ends with process.exit only with status 1. -/
theorem main_completion (env : Env) :
    ((main env).completion = .normal ↔ allSucceed env) ∧
    (∀ code, (main env).completion = .exited code → code = 1) := by
  cases hl : env.fail .launch with
  | some e =>
    rw [main_launch_failure env e hl]
    refine ⟨⟨fun h => by simp at h, fun h => ?_⟩, fun code h => by simp at h⟩
    rw [h .launch] at hl
    simp at hl
  | none =>
    rcases firstRejection_cases env with ht | ⟨e, he⟩
    · cases hc : env.fail .close with
      | some e =>
        rw [main_close_failure env e hl ht hc]
        refine ⟨⟨fun h => by simp at h, fun h => ?_⟩, fun code h => by simp at h⟩
        rw [h .close] at hc
        simp at hc
      | none =>
        have hall := (allSucceed_iff env).2 ⟨hl, ht, hc⟩
        rw [main_success env hall]
        exact ⟨⟨fun _ => hall, fun _ => rfl⟩, fun code h => by simp at h⟩
    · rw [(main_failure env e hl he).1]
      refine ⟨⟨fun h => by simp at h, fun h => ?_⟩, fun code h => by simpa using h.symm⟩
      have hnone : firstRejection env = none := by
        simp [firstRejection, trySteps, h _]
      rw [hnone] at he
      simp at he

/-- The script with the output directory in place: the directory calls, then main. -/
theorem script_of_dirReady (env : Env) (hd : dirReady env) :
    script env =
      ⟨Call.existsSync (env.join env.dirname "../../assets/images/social") ::
        ((if env.dirExists then []
          else [Call.mkdirSync (env.join env.dirname "../../assets/images/social") true]) ++
          (main env).trace),
       (main env).completion⟩ ∧
    (ensureOutputDir env).completion = .normal := by
  cases hx : env.dirExists
  · rcases hd with hd | hd
    · rw [hx] at hd
      simp at hd
    · simp [script, ensureOutputDir, doCall, Block.seq, outputDir, hx, hd]
  · simp [script, ensureOutputDir, doCall, Block.seq, outputDir, hx]

/-- The script when mkdirSync throws: the exception ends it before the launch. -/
theorem script_of_mkdir_error (env : Env) (e : String) (hx : env.dirExists = false)
    (hm : env.mkdirError = some e) :
    script env =
      ⟨[.existsSync (env.join env.dirname "../../assets/images/social"),
        .mkdirSync (env.join env.dirname "../../assets/images/social") true], .thrown e⟩ ∧
    (ensureOutputDir env).completion = .thrown e := by
  simp [script, ensureOutputDir, doCall, Block.seq, outputDir, hx, hm]

/-- C1, evaluated where it fails: the browser is launched and newPage rejects. The run
is launch, newPage, the error report, process.exit(1); it ends with exit status 1 and
browser.close() is not among its calls. -/
theorem close_skipped_when_newPage_rejects :
    (sampleEnv (some .newPage)).fail .launch = none ∧
    (main (sampleEnv (some .newPage))).trace =
      [.launch "new" ["--no-sandbox", "--disable-setuid-sandbox"], .newPage,
       .consoleError "Error generating social preview image:" "boom", .processExit 1] ∧
    (main (sampleEnv (some .newPage))).completion = .exited 1 ∧
    Call.close ∉ (main (sampleEnv (some .newPage))).trace := by
  decide

/-- C9, refuted as stated: when the launch rejects, the script ends with the rejected
promise of main after the directory calls and the launch; console.error is never
called, so the handler printing Error generating social preview image: reports
nothing. -/
theorem launch_failure_not_reported :
    (sampleEnv (some .launch)).fail .launch = some "boom" ∧
    script (sampleEnv (some .launch)) =
      ⟨[.existsSync "/repo/assets/images/social", .mkdirSync "/repo/assets/images/social" true,
        .launch "new" ["--no-sandbox", "--disable-setuid-sandbox"]], .thrown "boom"⟩ ∧
    (∀ m e, Call.consoleError m e ∉ (script (sampleEnv (some .launch))).trace) := by
  have hs : script (sampleEnv (some .launch)) =
      ⟨[.existsSync "/repo/assets/images/social", .mkdirSync "/repo/assets/images/social" true,
        .launch "new" ["--no-sandbox", "--disable-setuid-sandbox"]], .thrown "boom"⟩ := by
    decide
  refine ⟨by decide, hs, ?_⟩
  rw [hs]
  simp

/-- C9, amended: on a runtime that ends the process with a non-zero status after an
unhandled rejection, the exit status of the script is 0 exactly when the output
directory is in place (it existed or was created without error) and every awaited
operation resolves. When the directory is in place, the launch resolves and one of
newPage, setViewport, goto, evaluateHandle, screenshot rejects, the only console.error
call of the run is the one of the catch clause, with the message Error generating
social preview image: and the reason of the first rejection, the last call is
process.exit(1) and the exit status is 1. A run in which everything resolves and a run
whose launch rejects never call console.error. -/
theorem exit_status_spec (env : Env) (unhandledStatus : Nat) (hu : unhandledStatus ≠ 0) :
    (scriptStatus unhandledStatus env = 0 ↔ dirReady env ∧ allSucceed env) ∧
    (∀ e, dirReady env → env.fail .launch = none → firstRejection env = some e →
      (∀ m e', Call.consoleError m e' ∈ (script env).trace ↔
        m = "Error generating social preview image:" ∧ e' = e) ∧
      (script env).trace.getLast? = some (.processExit 1) ∧
      scriptStatus unhandledStatus env = 1) ∧
    (allSucceed env → ∀ m e, Call.consoleError m e ∉ (script env).trace) ∧
    (env.fail .launch ≠ none → ∀ m e, Call.consoleError m e ∉ (script env).trace) := by
  have hdir : dirReady env ∨ ∃ e, env.dirExists = false ∧ env.mkdirError = some e := by
    cases hx : env.dirExists
    · cases hm : env.mkdirError with
      | none => exact Or.inl (Or.inr hm)
      | some e => exact Or.inr ⟨e, rfl, rfl⟩
    · exact Or.inl (Or.inl hx)
  refine ⟨?_, ?_, ?_, ?_⟩
  · rcases hdir with hd | ⟨e, hx, hm⟩
    · have hmain := main_completion env
      simp only [scriptStatus, (script_of_dirReady env hd).2, hd, true_and]
      rw [← hmain.1]
      cases hc : (main env).completion with
      | normal => simp [exitStatus]
      | thrown e => simp [exitStatus, hu]
      | exited code =>
        have := hmain.2 code hc
        subst this
        simp [exitStatus]
    · have hnot : ¬ dirReady env := by
        rintro (h | h)
        · rw [hx] at h
          simp at h
        · rw [hm] at h
          simp at h
      simp [scriptStatus, (script_of_mkdir_error env e hx hm).2, hnot]
  · intro e hd hl hf
    obtain ⟨hmain, hbody⟩ := main_failure env e hl hf
    have hstatus : scriptStatus unhandledStatus env = 1 := by
      simp [scriptStatus, (script_of_dirReady env hd).2, hmain, exitStatus]
    refine ⟨?_, ?_, hstatus⟩
    · intro m e'
      rw [(script_of_dirReady env hd).1, hmain]
      have hno : Call.consoleError m e' ∉ (tryBody env).trace := fun hmem =>
        (hbody _ hmem).2.1 m e' rfl
      cases hx : env.dirExists <;> simp [hno]
    · rw [(script_of_dirReady env hd).1, hmain]
      simp only [← List.cons_append, ← List.append_assoc]
      rw [show ∀ (xs : List Call) (a b : Call), xs ++ [a, b] = (xs ++ [a]) ++ [b] from
        fun xs a b => by simp]
      exact List.getLast?_concat _
  · intro hall m e
    rcases hdir with hd | ⟨e0, hx, hm⟩
    · rw [(script_of_dirReady env hd).1, main_success env hall]
      cases hx : env.dirExists <;> simp
    · rw [(script_of_mkdir_error env e0 hx hm).1]
      simp
  · intro hl m e
    cases hl' : env.fail .launch with
    | none => exact absurd hl' hl
    | some e1 =>
      rcases hdir with hd | ⟨e0, hx, hm⟩
      · rw [(script_of_dirReady env hd).1, main_launch_failure env e1 hl']
        cases hx : env.dirExists <;> simp
      · rw [(script_of_mkdir_error env e0 hx hm).1]
        simp

/-- Witness of the amended C9: a host whose goto rejects with boom, on a runtime with
status 1 for unhandled rejections. The script exits with status 1 after reporting boom
and calling process.exit(1). -/
theorem exit_status_spec_witness :
    (1 : Nat) ≠ 0 ∧ dirReady (sampleEnv (some .goto)) ∧
    (sampleEnv (some .goto)).fail .launch = none ∧
    firstRejection (sampleEnv (some .goto)) = some "boom" ∧
    Call.consoleError "Error generating social preview image:" "boom" ∈
      (script (sampleEnv (some .goto))).trace ∧
    (script (sampleEnv (some .goto))).trace.getLast? = some (.processExit 1) ∧
    scriptStatus 1 (sampleEnv (some .goto)) = 1 ∧
    ¬ (dirReady (sampleEnv (some .goto)) ∧ allSucceed (sampleEnv (some .goto))) :=
  have h := exit_status_spec (sampleEnv (some .goto)) 1 (by decide)
  have hf := h.2.1 "boom" (Or.inr rfl) rfl rfl
  ⟨by decide, Or.inr rfl, rfl, rfl, (hf.1 _ _).2 ⟨rfl, rfl⟩, hf.2.1, hf.2.2,
    fun hall => absurd (h.1.2 hall) (by rw [hf.2.2]; decide)⟩

/-- The exit status when the output directory cannot be created: the exception of
mkdirSync is uncaught, the status is 1 and no automation call is made, although no
awaited operation would reject. -/
theorem mkdir_failure_run :
    allSucceed sampleEnvNoDir ∧
    script sampleEnvNoDir =
      ⟨[.existsSync "/repo/assets/images/social", .mkdirSync "/repo/assets/images/social" true],
       .thrown "EACCES"⟩ ∧
    scriptStatus 1 sampleEnvNoDir = 1 := by
  refine ⟨fun s => ?_, by decide, by decide⟩
  cases s <;> rfl

/-- Where a path holds no backslash, the replacement of line 30 leaves it as it is. -/
theorem map_backslash_of_not_mem (chars : List Char) (h : Char.ofNat 92 ∉ chars) :
    (chars.map fun c => if c = Char.ofNat 92 then Char.ofNat 47 else c) = chars := by
  induction chars with
  | nil => rfl
  | cons c rest ih =>
    have hc : ¬ c = Char.ofNat 92 := fun hc => h (by simp [hc])
    have hrest : Char.ofNat 92 ∉ rest := fun hmem => h (List.mem_cons_of_mem _ hmem)
    simp [hc, ih hrest]

/-- C10: a run of the script that ends normally is one in which the output directory is
in place and every awaited operation resolved, and its calls are, once each and in
this order: the check (and, if needed, the recursive creation) of the output directory
join(dirname, ../../assets/images/social), launch, newPage, setViewport with width 1200,
height 630 and scale factor 2, goto of the URL made of file:// and the path
join(dirname, ../../assets/images/social/core-concepts-preview.html) with every
backslash turned into a slash, waiting for networkidle0, evaluateHandle of
document.fonts.ready, screenshot of type png with fullPage false to
join(output directory, core-concepts-social.png), the confirmation message, close.
Where the path of the page holds no backslash the URL is file:// followed by the path
itself. -/
theorem successful_run_calls (env : Env) (h : (script env).completion = .normal) :
    allSucceed env ∧ dirReady env ∧
    (script env).trace =
      Call.existsSync (env.join env.dirname "../../assets/images/social") ::
        ((if env.dirExists then []
          else [Call.mkdirSync (env.join env.dirname "../../assets/images/social") true]) ++
          [.launch "new" ["--no-sandbox", "--disable-setuid-sandbox"], .newPage,
           .setViewport 1200 630 2,
           .goto ("file://" ++ String.mk
              ((env.join env.dirname
                  "../../assets/images/social/core-concepts-preview.html").data.map
                fun c => if c = Char.ofNat 92 then Char.ofNat 47 else c)) "networkidle0",
           .evaluateHandle "document.fonts.ready",
           .screenshot (env.join (env.join env.dirname "../../assets/images/social")
              "core-concepts-social.png") "png" false,
           .consoleLog ("Social preview image generated at: " ++
              env.join (env.join env.dirname "../../assets/images/social")
                "core-concepts-social.png"),
           .close]) ∧
    (Char.ofNat 92 ∉
        (env.join env.dirname "../../assets/images/social/core-concepts-preview.html").data →
      Call.goto ("file://" ++
          env.join env.dirname "../../assets/images/social/core-concepts-preview.html")
        "networkidle0" ∈ (script env).trace) := by
  have hd : dirReady env := by
    cases hx : env.dirExists
    · cases hm : env.mkdirError with
      | none => exact Or.inr hm
      | some e =>
        rw [(script_of_mkdir_error env e hx hm).1] at h
        simp at h
    · exact Or.inl hx
  have hscript := (script_of_dirReady env hd).1
  have hmain : (main env).completion = .normal := by
    rw [hscript] at h
    exact h
  have hall := (main_completion env).1.1 hmain
  have htrace := hscript
  rw [main_success env hall] at htrace
  refine ⟨hall, hd, ?_, ?_⟩
  · rw [htrace]
    simp [fileUrl, htmlPath, replaceBackslashes, outputPath, outputDir]
  · intro hno
    rw [htrace]
    have hurl : fileUrl env =
        "file://" ++ env.join env.dirname
          "../../assets/images/social/core-concepts-preview.html" := by
      simp only [fileUrl, htmlPath, replaceBackslashes]
      rw [map_backslash_of_not_mem _ hno]
    cases hx : env.dirExists <;> simp [hurl]

/-- Witness of C10: the sample host in which every operation resolves. The directory
/repo/assets/images/social is created, the page is loaded from
file:///repo/assets/images/social/core-concepts-preview.html and the screenshot goes to
/repo/assets/images/social/core-concepts-social.png. -/
theorem successful_run_calls_witness :
    (script (sampleEnv none)).completion = .normal ∧
    (sampleEnv none).dirname = "/repo/docs/scripts" ∧
    (script (sampleEnv none)).trace =
      [.existsSync "/repo/assets/images/social",
       .mkdirSync "/repo/assets/images/social" true,
       .launch "new" ["--no-sandbox", "--disable-setuid-sandbox"], .newPage,
       .setViewport 1200 630 2,
       .goto "file:///repo/assets/images/social/core-concepts-preview.html" "networkidle0",
       .evaluateHandle "document.fonts.ready",
       .screenshot "/repo/assets/images/social/core-concepts-social.png" "png" false,
       .consoleLog
          "Social preview image generated at: /repo/assets/images/social/core-concepts-social.png",
       .close] ∧
    allSucceed (sampleEnv none) ∧ dirReady (sampleEnv none) :=
  have h := successful_run_calls (sampleEnv none) (by decide)
  ⟨by decide, rfl, h.2.2.1.trans (by decide), h.1, h.2.1⟩

end SocialImage

/-! ### Tab keyboard navigation -/

namespace Tabs

theorem item_of_lt (n k : Nat) (h : k < n) : item n (k : Int) = some k := by
  have h' : (k : Int) < (n : Int) := by exact_mod_cast h
  simp [item, h']

theorem item_zero (n : Nat) (h : 0 < n) : item n 0 = some 0 := by
  simpa using item_of_lt n 0 h

theorem item_length (n : Nat) : item n (n : Int) = none := by
  simp [item]

/-- ArrowRight on input i of n: the next input, or the first one after the last. -/
theorem keydown_right (n i : Nat) (h : i < n) :
    keydown n i "ArrowRight" =
      .ok [.setChecked ((i + 1) % n), .focus ((i + 1) % n), .preventDefault] := by
  by_cases hlast : i + 1 < n
  · have h1 : item n ((i : Int) + 1) = some (i + 1) := by
      simpa using item_of_lt n (i + 1) hlast
    simp [keydown, h1, orElse, selectNode, Nat.mod_eq_of_lt hlast]
  · obtain rfl : n = i + 1 := by omega
    have h1 : item (i + 1) ((i : Int) + 1) = none := by
      simpa using item_length (i + 1)
    simp [keydown, h1, item_zero, orElse, selectNode]

/-- ArrowLeft on input i of n: the previous input, or the last one before the first. -/
theorem keydown_left (n i : Nat) (h : i < n) :
    keydown n i "ArrowLeft" =
      .ok [.setChecked ((i + n - 1) % n), .focus ((i + n - 1) % n), .preventDefault] := by
  have hlastItem : item n ((n : Int) - 1) = some (n - 1) := by
    have := item_of_lt n (n - 1) (by omega)
    rwa [Nat.cast_pred (by omega)] at this
  cases i with
  | zero =>
    have h1 : item n (-1) = none := by simp [item]
    have hm : (n - 1) % n = n - 1 := Nat.mod_eq_of_lt (by omega)
    simp [keydown, h1, hlastItem, orElse, selectNode, hm]
  | succ j =>
    have h1 : item n (j : Int) = some j := item_of_lt n j (by omega)
    have hm : j % n = j := Nat.mod_eq_of_lt (by omega)
    simp [keydown, h1, orElse, selectNode, hm]

/-- Home on any input of n: the first input. -/
theorem keydown_home (n i : Nat) (h : i < n) :
    keydown n i "Home" = .ok [.setChecked 0, .focus 0, .preventDefault] := by
  simp [keydown, item_zero n (by omega), selectNode]

/-- End on any input of n: the last input. -/
theorem keydown_end (n i : Nat) (h : i < n) :
    keydown n i "End" = .ok [.setChecked (n - 1), .focus (n - 1), .preventDefault] := by
  have hlastItem : item n ((n : Int) - 1) = some (n - 1) := by
    have := item_of_lt n (n - 1) (by omega)
    rwa [Nat.cast_pred (by omega)] at this
  simp [keydown, hlastItem, selectNode]

/-- One ArrowRight press on a page whose focused input is i. -/
theorem press_right (page : Page) (i : Nat) (h : i < inputCount page.doc)
    (hf : page.focused = some i) :
    (press "ArrowRight" page).doc = page.doc ∧
    (press "ArrowRight" page).focused = some ((i + 1) % inputCount page.doc) ∧
    (press "ArrowRight" page).checked ((i + 1) % inputCount page.doc) = true := by
  simp [press, hf, h, handlerOf, keydown_right _ _ h, applyEffect]

/-- After k ArrowRight presses from input i the focus is on input (i + k) mod n, and
that input is checked as soon as one press was made. -/
theorem press_right_iterate (k : Nat) (page : Page) (i : Nat) (h : i < inputCount page.doc)
    (hf : page.focused = some i) :
    ((press "ArrowRight")^[k] page).doc = page.doc ∧
    ((press "ArrowRight")^[k] page).focused = some ((i + k) % inputCount page.doc) ∧
    (0 < k → ((press "ArrowRight")^[k] page).checked ((i + k) % inputCount page.doc) = true) := by
  induction k with
  | zero =>
    refine ⟨rfl, ?_, fun h0 => absurd h0 (by decide)⟩
    simp [hf, Nat.mod_eq_of_lt h]
  | succ k ih =>
    obtain ⟨hdoc, hfoc, _⟩ := ih
    have hlt : (i + k) % inputCount ((press "ArrowRight")^[k] page).doc <
        inputCount ((press "ArrowRight")^[k] page).doc := by
      rw [hdoc]
      exact Nat.mod_lt _ (by omega)
    have hfoc' : ((press "ArrowRight")^[k] page).focused =
        some ((i + k) % inputCount ((press "ArrowRight")^[k] page).doc) := by
      rw [hdoc]
      exact hfoc
    have hstep := press_right _ _ hlt hfoc'
    rw [hdoc] at hstep
    have hmod : ((i + k) % inputCount page.doc + 1) % inputCount page.doc =
        (i + (k + 1)) % inputCount page.doc := by
      rw [← Nat.add_assoc]
      exact Nat.mod_add_mod (i + k) (inputCount page.doc) 1
    rw [hmod] at hstep
    rw [Function.iterate_succ_apply']
    exact ⟨hstep.1, hstep.2.1, fun _ => hstep.2.2⟩

/-- C2, refuted as stated: a document with two tab sets of two inputs each. From the
first input of the first set (N = 2), two ArrowRight presses put the focus on input 2,
the first input of the second set; input 0 is neither focused nor checked. -/
theorem arrow_right_crosses_groups :
    inputCount [2, 2] = 4 ∧ [2, 2].getD 0 0 = 2 ∧ offset [2, 2] 0 + 0 = 0 ∧
    ((press "ArrowRight")^[2] (startAt [2, 2] 0)).focused = some 2 ∧
    groupOf [2, 2] 2 = 1 ∧ groupOf [2, 2] 0 = 0 ∧
    ((press "ArrowRight")^[2] (startAt [2, 2] 0)).checked 0 = false ∧
    ¬ selected ((press "ArrowRight")^[2] (startAt [2, 2] 0)) 0 := by
  refine ⟨by decide, by decide, by decide, by decide, by decide, by decide, by decide, ?_⟩
  intro hsel
  exact absurd hsel.2 (by decide)

/-- C2, amended: with n the number of all tab inputs of the document (the inputs of
all tab sets together) and i < n the focused input, n presses of ArrowRight in
succession leave input i checked and focused. For a document with a single tab set
this is the cycle through that set. -/
theorem right_cycle (page : Page) (i : Nat) (h : i < inputCount page.doc)
    (hf : page.focused = some i) :
    selected ((press "ArrowRight")^[inputCount page.doc] page) i := by
  obtain ⟨_, hfoc, hchk⟩ := press_right_iterate (inputCount page.doc) page i h hf
  have hmod : (i + inputCount page.doc) % inputCount page.doc = i := by
    rw [Nat.add_mod_right]
    exact Nat.mod_eq_of_lt h
  rw [hmod] at hfoc hchk
  exact ⟨hchk (by omega), hfoc⟩

/-- Witness of the amended C2: a single tab set of three inputs, starting from the
second one. -/
theorem right_cycle_witness :
    1 < inputCount (startAt [3] 1).doc ∧ (startAt [3] 1).focused = some 1 ∧
    selected ((press "ArrowRight")^[inputCount (startAt [3] 1).doc] (startAt [3] 1)) 1 :=
  ⟨by decide, rfl, right_cycle (startAt [3] 1) 1 (by decide) rfl⟩

/-- C3, refuted as stated: a document with a tab set of two inputs followed by a tab
set of three. For the last input of the first set (i = 1, N = 2) ArrowRight selects
input 2, which belongs to the second set, and not input (1 + 1) mod 2 = 0 of its own
set; for the first input End selects input 4 and not input N - 1 = 1. -/
theorem handler_counts_all_inputs :
    [2, 3].getD 0 0 = 2 ∧ groupOf [2, 3] 1 = 0 ∧
    handlerOf [2, 3] 1 "ArrowRight" = .ok [.setChecked 2, .focus 2, .preventDefault] ∧
    groupOf [2, 3] 2 = 1 ∧ offset [2, 3] 0 + (1 + 1) % 2 = 0 ∧
    handlerOf [2, 3] 0 "End" = .ok [.setChecked 4, .focus 4, .preventDefault] ∧
    offset [2, 3] 0 + (2 - 1) = 1 :=
  ⟨by decide, by decide, rfl, by decide, by decide, rfl, by decide⟩

/-- C3, amended: with n the number of all tab inputs of the document and i < n, the
listener of input i checks and focuses input (i + 1) mod n on ArrowRight, input
(i - 1 + n) mod n on ArrowLeft (written i + n - 1 over the naturals), input 0 on Home
and input n - 1 on End, each time preventing the default action. -/
theorem handler_transitions (doc : TabDocument) (i : Nat) (h : i < inputCount doc) :
    handlerOf doc i "ArrowRight" =
      .ok [.setChecked ((i + 1) % inputCount doc), .focus ((i + 1) % inputCount doc),
           .preventDefault] ∧
    handlerOf doc i "ArrowLeft" =
      .ok [.setChecked ((i + inputCount doc - 1) % inputCount doc),
           .focus ((i + inputCount doc - 1) % inputCount doc), .preventDefault] ∧
    handlerOf doc i "Home" = .ok [.setChecked 0, .focus 0, .preventDefault] ∧
    handlerOf doc i "End" =
      .ok [.setChecked (inputCount doc - 1), .focus (inputCount doc - 1), .preventDefault] :=
  ⟨keydown_right _ _ h, keydown_left _ _ h, keydown_home _ _ h, keydown_end _ _ h⟩

/-- Witness of the amended C3: the first input of a document with a single tab set of
three inputs. -/
theorem handler_transitions_witness :
    0 < inputCount [3] ∧
    (handlerOf [3] 0 "ArrowRight" =
      .ok [.setChecked ((0 + 1) % inputCount [3]), .focus ((0 + 1) % inputCount [3]),
           .preventDefault] ∧
    handlerOf [3] 0 "ArrowLeft" =
      .ok [.setChecked ((0 + inputCount [3] - 1) % inputCount [3]),
           .focus ((0 + inputCount [3] - 1) % inputCount [3]), .preventDefault] ∧
    handlerOf [3] 0 "Home" = .ok [.setChecked 0, .focus 0, .preventDefault] ∧
    handlerOf [3] 0 "End" =
      .ok [.setChecked (inputCount [3] - 1), .focus (inputCount [3] - 1), .preventDefault]) :=
  ⟨by decide, handler_transitions [3] 0 (by decide)⟩

end Tabs

/-! ### Copy buttons -/

namespace Copy

/-- A successful write: what step leaves behind. -/
theorem step_resolved (v : Variant) (ui : Ui) (a : Activation) (hres : a.result = .resolved)
    (hcode : v = .theme → a.codeFound = true) :
    step v ui a =
      { advance a.time ui with
        clipboard := some a.text
        icon := "check"
        timers := (advance a.time ui).timers ++ [a.time + 2000] } := by
  cases v
  · simp [step, settle, hres]
  · simp [step, settle, hres, hcode rfl]

/-- A rejected write in extra.js: no catch reaction exists, the rejection stays
unhandled, nothing is logged and the icon is not touched by the reactions. -/
theorem step_rejected_assets (ui : Ui) (a : Activation) (reason : String)
    (hres : a.result = .rejected reason) :
    step .assets ui a =
      { advance a.time ui with unhandled := (advance a.time ui).unhandled ++ [reason] } := by
  simp [step, settle, hres]

/-- A rejected write in theme.js: the catch reaction logs it. -/
theorem step_rejected_theme (ui : Ui) (a : Activation) (reason : String)
    (hres : a.result = .rejected reason) (hcode : a.codeFound = true) :
    step .theme ui a =
      { advance a.time ui with
        console := (advance a.time ui).console ++ ["Failed to copy text: " ++ reason] } := by
  simp [step, settle, hres, hcode]

/-- C4, refuted as stated: two successful activations of the copy button of extra.js,
at 0 ms and at 1000 ms. The window of the second one is 1000 ms to 3000 ms, but the
timer set by the first one fires at 2000 ms: the icon shows check at 1999 ms and
content_copy at 2000 ms. -/
theorem indicator_cut_short :
    (run .assets [⟨0, "x = 1", true, .resolved⟩, ⟨1000, "x = 1", true, .resolved⟩]).clipboard =
      some "x = 1" ∧
    (advance 1999
      (run .assets [⟨0, "x = 1", true, .resolved⟩, ⟨1000, "x = 1", true, .resolved⟩])).icon =
      "check" ∧
    (advance 2000
      (run .assets [⟨0, "x = 1", true, .resolved⟩, ⟨1000, "x = 1", true, .resolved⟩])).icon =
      "content_copy" ∧
    1000 ≤ 2000 ∧ 2000 < 1000 + 2000 := by
  decide

/-- C4, amended: for every activation whose write succeeds, the clipboard holds exactly
the text of the code block and, once 2000 ms have passed since the success, the icon
shows content_copy again. At an instant u of the 2000 ms window the icon shows check
when no timer set by an earlier activation falls due from the success up to u (all of
them are due before the success or after u), and it shows content_copy as soon as a
timer of an earlier activation has fallen due after the success. -/
theorem indicator_window (v : Variant) (ui : Ui) (a : Activation)
    (hres : a.result = .resolved) (hcode : v = .theme → a.codeFound = true) :
    (step v ui a).clipboard = some a.text ∧
    (∀ u, a.time + 2000 ≤ u → (advance u (step v ui a)).icon = "content_copy") ∧
    (∀ u, a.time ≤ u → u < a.time + 2000 → (∀ d ∈ ui.timers, d < a.time ∨ u < d) →
      (advance u (step v ui a)).icon = "check") ∧
    (∀ u, (∃ d ∈ ui.timers, a.time < d ∧ d ≤ u) →
      (advance u (step v ui a)).icon = "content_copy") := by
  rw [step_resolved v ui a hres hcode]
  refine ⟨rfl, ?_, ?_, ?_⟩
  · intro u hle
    simp [advance, hle]
  · intro u _ hlt hquiet
    have hnew : ¬ a.time + 2000 ≤ u := by omega
    have hold : ∀ d ∈ ui.timers, a.time < d → ¬ d ≤ u := by
      intro d hd hlate
      rcases hquiet d hd with h | h <;> omega
    simp only [advance, List.any_append, List.any_filter]
    have hany : (ui.timers.any fun d => decide (a.time < d) && decide (d ≤ u)) = false := by
      rw [List.any_eq_false]
      intro d hd
      have := hold d hd
      simp only [Bool.and_eq_true, decide_eq_true_eq, not_and]
      exact this
    simp [hany, hnew]
  · rintro u ⟨d, hd, hlate, hdue⟩
    have hany : (ui.timers.any fun d => decide (a.time < d) && decide (d ≤ u)) = true := by
      rw [List.any_eq_true]
      exact ⟨d, hd, by simp [hlate, hdue]⟩
    simp only [advance, List.any_append, List.any_filter]
    simp [hany]

/-- Witness of the amended C4: a second activation 2500 ms after a first one. Its icon
shows check at 2500 ms and at 4499 ms and content_copy at 4500 ms. -/
theorem indicator_window_witness :
    (⟨2500, "x = 1", true, .resolved⟩ : Activation).result = .resolved ∧
    (run .assets [⟨0, "x = 1", true, .resolved⟩]).timers = [2000] ∧
    (step .assets (run .assets [⟨0, "x = 1", true, .resolved⟩])
        ⟨2500, "x = 1", true, .resolved⟩).clipboard = some "x = 1" ∧
    (advance 2500 (step .assets (run .assets [⟨0, "x = 1", true, .resolved⟩])
        ⟨2500, "x = 1", true, .resolved⟩)).icon = "check" ∧
    (advance 4499 (step .assets (run .assets [⟨0, "x = 1", true, .resolved⟩])
        ⟨2500, "x = 1", true, .resolved⟩)).icon = "check" ∧
    (advance 4500 (step .assets (run .assets [⟨0, "x = 1", true, .resolved⟩])
        ⟨2500, "x = 1", true, .resolved⟩)).icon = "content_copy" :=
  have h := indicator_window .assets (run .assets [⟨0, "x = 1", true, .resolved⟩])
    ⟨2500, "x = 1", true, .resolved⟩ rfl (by decide)
  ⟨rfl, by decide, h.1,
    h.2.2.1 2500 (by decide) (by decide) (by decide),
    h.2.2.1 4499 (by decide) (by decide) (by decide),
    h.2.1 4500 (by decide)⟩

/-- C5, evaluated where it fails: a rejected clipboard write. In extra.js the rejection
reaches no handler and nothing is logged; in theme.js it is logged by the catch
reaction. In both the icon keeps its default. -/
theorem rejection_unhandled_in_assets :
    step .assets initial ⟨0, "x = 1", true, .rejected "NotAllowedError"⟩ =
      ⟨"content_copy", none, [], [], ["NotAllowedError"]⟩ ∧
    step .theme initial ⟨0, "x = 1", true, .rejected "NotAllowedError"⟩ =
      ⟨"content_copy", none, [], ["Failed to copy text: NotAllowedError"], []⟩ := by
  decide

end Copy

/-! ### External link annotation -/

namespace Links

theorem getAttribute_setAttribute_self (name value : String) (l : List (String × String)) :
    getAttribute name (setAttribute name value l) = some value := by
  induction l with
  | nil => simp [setAttribute, getAttribute]
  | cons p rest ih =>
    obtain ⟨n, v⟩ := p
    by_cases hn : n = name
    · simp [setAttribute, getAttribute, hn]
    · simp [setAttribute, getAttribute, hn, ih]

theorem getAttribute_setAttribute_ne (name other value : String) (h : name ≠ other)
    (l : List (String × String)) :
    getAttribute name (setAttribute other value l) = getAttribute name l := by
  induction l with
  | nil => simp [setAttribute, getAttribute, Ne.symm h]
  | cons p rest ih =>
    obtain ⟨n, v⟩ := p
    by_cases hn : n = other
    · have hn' : ¬ n = name := fun hc => h (hc.symm.trans hn)
      have ho : ¬ other = name := Ne.symm h
      simp [setAttribute, getAttribute, hn, hn', ho]
    · by_cases hn' : n = name
      · subst hn'
        simp [setAttribute, getAttribute, h]
      · simp [setAttribute, getAttribute, hn, hn', ih]

theorem setAttribute_of_getAttribute (name value : String) (l : List (String × String))
    (h : getAttribute name l = some value) : setAttribute name value l = l := by
  induction l with
  | nil => simp [getAttribute] at h
  | cons p rest ih =>
    obtain ⟨n, v⟩ := p
    by_cases hn : n = name
    · simp [getAttribute, hn] at h
      simp [setAttribute, hn, h]
    · simp [getAttribute, hn] at h
      simp [setAttribute, hn, ih h]

/-- Setting target and rel a second time changes nothing. -/
theorem setAttribute_twice (l : List (String × String)) :
    setAttribute "rel" "noopener noreferrer" (setAttribute "target" "_blank"
      (setAttribute "rel" "noopener noreferrer" (setAttribute "target" "_blank" l))) =
    setAttribute "rel" "noopener noreferrer" (setAttribute "target" "_blank" l) := by
  have htarget : getAttribute "target"
      (setAttribute "rel" "noopener noreferrer" (setAttribute "target" "_blank" l)) =
      some "_blank" := by
    rw [getAttribute_setAttribute_ne "target" "rel" _ (by decide),
      getAttribute_setAttribute_self]
  rw [setAttribute_of_getAttribute _ _ _ htarget]
  exact setAttribute_of_getAttribute _ _ _ (getAttribute_setAttribute_self _ _ _)

theorem isExternal_iff (docHost : String) (link : Link) :
    isExternal docHost link = true ↔ link.hostname ≠ "" ∧ link.hostname ≠ docHost := by
  simp [isExternal]

theorem isExternal_annotateLink (docHost : String) (link : Link) :
    isExternal docHost (annotateLink docHost link) = isExternal docHost link := by
  by_cases h : isExternal docHost link = true
  · simp only [annotateLink, h, if_true]
    simpa [isExternal] using h
  · simp [annotateLink, h]

/-- C6: after one run of the annotation, every link whose hostname is non-empty and
differs from the hostname of the document has target _blank, rel noopener noreferrer,
its other attributes as before, and its former children followed by exactly the icon
span (class external-link-icon, aria-hidden true) and the sr-only span, in that order;
every link whose hostname is empty or equal to that of the document is unchanged. The
document keeps its hostname and its number of links. -/
theorem annotate_spec (doc : Document) (k : Nat) (link : Link)
    (h : doc.links[k]? = some link) :
    (annotate doc).hostname = doc.hostname ∧
    (annotate doc).links.length = doc.links.length ∧
    iconSpan.className = "external-link-icon" ∧
    getAttribute "aria-hidden" iconSpan.attrs = some "true" ∧
    srText.className = "sr-only" ∧
    ∃ link', (annotate doc).links[k]? = some link' ∧
      link'.hostname = link.hostname ∧
      (link.hostname ≠ "" ∧ link.hostname ≠ doc.hostname →
        getAttribute "target" link'.attrs = some "_blank" ∧
        getAttribute "rel" link'.attrs = some "noopener noreferrer" ∧
        (∀ name, name ≠ "target" → name ≠ "rel" →
          getAttribute name link'.attrs = getAttribute name link.attrs) ∧
        link'.children = link.children ++ [.span iconSpan, .span srText]) ∧
      (link.hostname = "" ∨ link.hostname = doc.hostname → link' = link) := by
  refine ⟨rfl, by simp [annotate], rfl, by decide, rfl,
    annotateLink doc.hostname link, by simp [annotate, h], ?_, ?_, ?_⟩
  · by_cases hx : isExternal doc.hostname link = true <;> simp [annotateLink, hx]
  · intro hext
    have hx := (isExternal_iff doc.hostname link).2 hext
    rw [annotateLink, if_pos hx]
    refine ⟨?_, getAttribute_setAttribute_self _ _ _, ?_, rfl⟩
    · rw [getAttribute_setAttribute_ne "target" "rel" _ (by decide),
        getAttribute_setAttribute_self]
    · intro name ht hr
      rw [getAttribute_setAttribute_ne name "rel" _ hr,
        getAttribute_setAttribute_ne name "target" _ ht]
  · intro hint
    have hx : ¬ isExternal doc.hostname link = true := by
      rw [isExternal_iff]
      rintro ⟨h1, h2⟩
      rcases hint with h0 | h0
      · exact h1 h0
      · exact h2 h0
    simp [annotateLink, hx]

/-- Witness of C6: the link to github.com in the sample document. -/
theorem annotate_spec_witness :
    sampleDocument.links[0]? =
      some ⟨"github.com", [("href", "https://github.com/x")], [.other "repo"]⟩ ∧
    (annotate sampleDocument).links[0]? =
      some ⟨"github.com",
        [("href", "https://github.com/x"), ("target", "_blank"),
         ("rel", "noopener noreferrer")],
        [.other "repo", .span iconSpan, .span srText]⟩ ∧
    (annotate sampleDocument).links[1]? = sampleDocument.links[1]? ∧
    ∃ link', (annotate sampleDocument).links[0]? = some link' ∧
      link'.children = [.other "repo", .span iconSpan, .span srText] := by
  obtain ⟨_, _, _, _, _, link', hk, _, hext, _⟩ :=
    annotate_spec sampleDocument 0
      ⟨"github.com", [("href", "https://github.com/x")], [.other "repo"]⟩ (by decide)
  exact ⟨by decide, by decide, by decide, link', hk, (hext (by decide)).2.2.2⟩

/-- C7, refuted as stated: on the sample document a second run changes the document
again, and the link to github.com then carries two icon spans and two sr-only spans. -/
theorem annotate_not_idempotent :
    annotate (annotate sampleDocument) ≠ annotate sampleDocument ∧
    (annotate sampleDocument).links.map (countClass "external-link-icon") = [1, 0] ∧
    (annotate (annotate sampleDocument)).links.map (countClass "external-link-icon") = [2, 0] ∧
    (annotate (annotate sampleDocument)).links.map (countClass "sr-only") = [2, 0] := by
  decide

/-- C7, amended: a second run leaves the hostname of the document, the attributes of
every link and every link that is not external as the first run left them, and
appends one more icon span and one more sr-only span to each external link. -/
theorem annotate_twice (doc : Document) :
    (annotate (annotate doc)).hostname = (annotate doc).hostname ∧
    (annotate (annotate doc)).links =
      (annotate doc).links.map fun link =>
        if link.hostname ≠ "" ∧ link.hostname ≠ doc.hostname then
          { link with children := link.children ++ [.span iconSpan, .span srText] }
        else link := by
  refine ⟨rfl, ?_⟩
  simp only [annotate, List.map_map]
  apply List.map_congr_left
  intro link _
  simp only [Function.comp]
  by_cases hx : isExternal doc.hostname link = true
  · have hh := (isExternal_iff doc.hostname link).1 hx
    have hx' := (isExternal_annotateLink doc.hostname link).trans hx
    have hh' : (annotateLink doc.hostname link).hostname = link.hostname := by
      simp [annotateLink, hx]
    rw [hh', if_pos hh]
    conv_lhs => rw [annotateLink, if_pos hx']
    simp [annotateLink, hx, setAttribute_twice]
  · have hh : ¬ (link.hostname ≠ "" ∧ link.hostname ≠ doc.hostname) := fun hc =>
      hx ((isExternal_iff doc.hostname link).2 hc)
    have hl : annotateLink doc.hostname link = link := by simp [annotateLink, hx]
    rw [hl, hl, if_neg hh]

end Links

/-! ### Smooth scrolling -/

namespace Scroll

/-- In every handler, a click on a link whose target is found prevents the default
action first, scrolls to exactly that element and raises nothing. -/
theorem click_found (v : Variant) (dom : Dom) (href : String) (target : Nat)
    (hbare : href ≠ "#") (hq : dom.querySelector href = .ok (some target)) :
    (click v dom href).effects.head? = some .preventDefault ∧
    scrolledTo (click v dom href) = [target] ∧
    (click v dom href).error = none := by
  cases v <;> cases hp : dom.hasPushState <;> simp [click, hq, hbare, scrolledTo, hp]

/-- In every handler, a click on a link whose target is missing only prevents the
default action. -/
theorem click_missing (v : Variant) (dom : Dom) (href : String)
    (hq : dom.querySelector href = .ok none) :
    click v dom href = ⟨[.preventDefault], none⟩ := by
  cases v <;> simp [click, hq]

/-- The handler of theme.js returns right after preventDefault on the href "#". -/
theorem click_bare_theme (dom : Dom) :
    click .theme dom "#" = ⟨[.preventDefault], none⟩ := by
  simp [click]

/-- The handlers of extra.js and main.js pass the href "#" to querySelector, and the
exception it throws leaves the handler. -/
theorem click_bare_throws (dom : Dom) (e : String) (hq : dom.querySelector "#" = .error e) :
    click .assets dom "#" = ⟨[.preventDefault], some e⟩ ∧
    click .main dom "#" = ⟨[.preventDefault], some e⟩ := by
  simp [click, hq]

/-- C8, evaluated where it fails: a click on a link with href "#" on a page with an
element of id section-2. The handlers of extra.js and main.js prevent the default
action and then raise the SyntaxError thrown by querySelector; the handler of theme.js
returns without error. A click on href "#section-2" scrolls to the element. -/
theorem bare_hash_click_throws :
    click .assets (sampleDom ["intro", "section-2"]) "#" =
      ⟨[.preventDefault], some "SyntaxError"⟩ ∧
    click .main (sampleDom ["intro", "section-2"]) "#" =
      ⟨[.preventDefault], some "SyntaxError"⟩ ∧
    click .theme (sampleDom ["intro", "section-2"]) "#" = ⟨[.preventDefault], none⟩ ∧
    click .assets (sampleDom ["intro", "section-2"]) "#section-2" =
      ⟨[.preventDefault, .scrollIntoView 1 "smooth" "start"], none⟩ ∧
    click .assets (sampleDom ["intro", "section-2"]) "#section-9" =
      ⟨[.preventDefault], none⟩ := by
  decide

end Scroll

end Chronovyan
